import Mathlib

/-!
# Verification of the facer backend's similarity / ranking core

Shallow embedding of the similarity-scoring and contest-ranking workflow of
the `facer` backend (`server.js` and its near-identical copies).

Conventions used throughout:

* JSON numbers and the values of PostgreSQL numeric columns are IEEE-754
  doubles; every finite double is a rational number, so vectors are embedded
  as `List ℚ` and stored similarity scores as `ℚ`.  The cosine-similarity
  value itself involves a square root and is modelled exactly over `ℝ`.
* The `compute-cosine-similarity` npm package and the pgvector `<=>`
  operator are external dependencies whose code is not part of the
  repository; they are modelled from the spec (their defining documents are
  quoted at the definitions below).
* SQL `ORDER BY` with a single sort key specifies only that the returned
  rows are a permutation of the selected rows that is sorted on that key;
  the relative order of rows with equal keys is unspecified.  Such queries
  are therefore embedded as relations between the table contents and the
  possible result lists, not as functions.
-/

/-- Error kinds of the request-boundary failures (spec §7). -/
inductive Err where
  | DimensionMismatch
  | DegenerateVector
  | InvalidEmbeddingShape
  | EmptyCollection
  | NotFound
deriving DecidableEq

/-- Dot product of two vectors, in exact rational arithmetic
(`zipWith` truncates at the shorter list, matching the summation loop). -/
def dotQ (a b : List ℚ) : ℚ := (List.zipWith (· * ·) a b).sum

/-- Squared magnitude of a vector: the dot product with itself. -/
def magSqQ (a : List ℚ) : ℚ := dotQ a a

/-- The raw cosine-similarity value: dot product divided by the product of
the two magnitudes. -/
noncomputable def cosSimVal (a b : List ℚ) : ℝ :=
  (dotQ a b : ℝ) / (Real.sqrt (magSqQ a) * Real.sqrt (magSqQ b))

/-- Modelled from the spec: the `similarity` function used by every route is
`require('compute-cosine-similarity')`, an npm dependency whose code is not
in the repository.  Spec §4.1: given two embeddings of equal length it
returns their cosine similarity: the dot product of the two vectors divided
by the product of their magnitudes; it fails with `DimensionMismatch` if
lengths differ and with `DegenerateVector` if either vector's magnitude is
zero (a magnitude is zero exactly when the squared magnitude is zero). -/
noncomputable def similarity (a b : List ℚ) : Except Err ℝ :=
  if a.length ≠ b.length then .error .DimensionMismatch
  else if magSqQ a = 0 ∨ magSqQ b = 0 then .error .DegenerateVector
  else .ok (cosSimVal a b)

/-- JavaScript `Math.round`: rounds to the nearest integer, halves toward
positive infinity. -/
noncomputable def jsRound (x : ℝ) : ℤ := ⌊x + 1 / 2⌋

/-- Response body of `POST /friend_similarity`. -/
structure FriendSimResp where
  cosine_similarity : ℝ
  similarity_percent : ℤ

/-- Core of `POST /friend_similarity` (part_001:1282-1291): computes the
cosine similarity of the two stored embeddings and the rounded percentage
`Math.round(((score + 1) / 2) * 100)`. -/
noncomputable def friend_similarity_core (vecUser vecFriend : List ℚ) :
    Except Err FriendSimResp :=
  (similarity vecUser vecFriend).map fun score =>
    { cosine_similarity := score
      similarity_percent := jsRound ((score + 1) / 2 * 100) }

/-! ## Vector store adapter -/

/-- A row of the `user_photos` table as written by `POST /uploaduser`
(the pgvector column holds the serialized literal text). -/
structure StoredPhoto where
  user_id : ℕ
  embedding_vector : String
deriving DecidableEq

/-- The pgvector literal `[v1,v2,...]` built by `embeddingVectorString =
`[${embeddingVectorRaw.join(',')}]`` (server.js:170): the rendered values
joined by commas, wrapped in brackets. -/
def vectorLiteral (vs : List ℚ) : String :=
  "[" ++ String.intercalate "," (vs.map toString) ++ "]"

/-- Core of `POST /uploaduser` (server.js:166-181): if the embedding
returned by the inference service is an array of length exactly 512 it is
serialized with `vectorLiteral` and a row is inserted into `user_photos`;
otherwise the handler throws before reaching the insert, so the table is
unchanged.  Returns the new table contents together with the outcome. -/
def uploaduser (photos : List StoredPhoto) (userId : ℕ) (raw : List ℚ) :
    List StoredPhoto × Except Err StoredPhoto :=
  if raw.length = 512 then
    let row : StoredPhoto := { user_id := userId, embedding_vector := vectorLiteral raw }
    (photos ++ [row], .ok row)
  else
    (photos, .error .InvalidEmbeddingShape)

/-- A row of the `target_photos` table, with its embedding in parsed form. -/
structure Target where
  target_photo_id : ℕ
  embedding_vector : List ℚ
deriving DecidableEq

/-- Modelled from the spec: pgvector's `<=>` operator is part of the
database extension, not of the repository.  Spec §4.2 and the comment at
server.js:417 (`<=>` is cosine distance, `1 - distance` is similarity)
define it as `1 - cosine_similarity`. -/
noncomputable def cosDist (a b : List ℚ) : ℝ := 1 - cosSimVal a b

/-- Cosine distance from the query embedding to a stored target row. -/
noncomputable def distTo (q : List ℚ) (t : Target) : ℝ :=
  cosDist t.embedding_vector q

/-- The rows of `target_photos` listed in ascending `embedding_vector <=> $1`
order: pairwise nondecreasing distance to the query. -/
def sortedAscDist (q : List ℚ) (l : List Target) : Prop :=
  List.Pairwise (fun a b => distTo q a ≤ distTo q b) l

/-- Row returned by `POST /find_most_similar`: the selected target row
together with its computed `similarity` column. -/
structure FindRow where
  target : Target
  similarity : ℝ

/-- `POST /find_most_similar` (server.js:405-437) as a relation between the
`target_photos` table, the query embedding and the response:
`SELECT *, 1 - (embedding_vector <=> $1) AS similarity FROM target_photos
ORDER BY embedding_vector <=> $1 LIMIT 1`, answering 404 when no row comes
back.  `ORDER BY` fixes only the distance ordering, so the result is any
head of a distance-sorted permutation of the table. -/
def find_most_similar_rel (targets : List Target) (q : List ℚ)
    (out : Except Err FindRow) : Prop :=
  (targets = [] ∧ out = .error .EmptyCollection) ∨
  (∃ x xs, (x :: xs).Perm targets ∧ sortedAscDist q (x :: xs) ∧
    out = .ok { target := x, similarity := 1 - distTo q x })

/-! ## Contest data model and ranking -/

/-- A row of the `contests` table (the columns the ranking workflow touches:
identity, target embedding, lifecycle status and the three winner slots). -/
structure Contest where
  contest_id : ℕ
  target_embedding : List ℚ
  status : String
  first_user_id : Option ℕ
  second_user_id : Option ℕ
  third_user_id : Option ℕ
deriving DecidableEq

/-- A row of the `user_photos` table with its embedding in parsed form, as
read back by `POST /contest_entry_add`. -/
structure UserPhoto where
  user_photo_id : ℕ
  user_id : ℕ
  embedding_vector : List ℚ
deriving DecidableEq

/-- A row of the `contest_entries` table. -/
structure ContestEntry where
  contest_id : ℕ
  user_id : ℕ
  user_photo_id : ℕ
  similarity_score : ℚ
  submitted_at : ℕ
deriving DecidableEq

/-- The database state the contest workflow operates on.  `now` is a logical
clock standing for `NOW()`: it increases with every insert, so rows inserted
later carry strictly larger `submitted_at` values. -/
structure DB where
  contests : List Contest
  user_photos : List UserPhoto
  contest_entries : List ContestEntry
  now : ℕ
deriving DecidableEq

/-- `SELECT ... FROM contests WHERE contest_id = $1` (first matching row). -/
def findContest (db : DB) (cid : ℕ) : Option Contest :=
  db.contests.find? fun c => c.contest_id == cid

/-- `SELECT embedding_vector FROM user_photos WHERE user_id = $1 AND
user_photo_id = $2` (first matching row). -/
def findUserPhoto (db : DB) (uid pid : ℕ) : Option UserPhoto :=
  db.user_photos.find? fun p => p.user_id == uid && p.user_photo_id == pid

/-- The `contest_entries` row inserted by `POST /contest_entry_add`. -/
def mkEntry (cid uid pid : ℕ) (score : ℚ) (at' : ℕ) : ContestEntry :=
  { contest_id := cid, user_id := uid, user_photo_id := pid
    similarity_score := score, submitted_at := at' }

/-- `POST /contest_entry_add` (part_001:857-909): reads the contest's target
embedding and the submitted photo's embedding, computes
`similarity_score = similarity(vec1, vec2)` and inserts a fresh
`contest_entries` row carrying that score and `submitted_at = NOW()`.
The similarity engine is the injected dependency `simFn` (its stored result
is a numeric column value, hence rational); a missing contest or photo row
makes `rows[0]` undefined and the handler throw. -/
def contest_entry_add (simFn : List ℚ → List ℚ → Except Err ℚ) (db : DB)
    (cid uid pid : ℕ) : Except Err (DB × ContestEntry) :=
  match findContest db cid with
  | none => .error .NotFound
  | some c =>
    match findUserPhoto db uid pid with
    | none => .error .NotFound
    | some p =>
      match simFn c.target_embedding p.embedding_vector with
      | .error e => .error e
      | .ok score =>
        .ok ({ db with
                contest_entries := db.contest_entries ++ [mkEntry cid uid pid score db.now]
                now := db.now + 1 }, mkEntry cid uid pid score db.now)

/-- Rows listed in `ORDER BY similarity_score DESC` order: pairwise
nonincreasing score.  The query has no secondary sort key, so nothing
constrains the relative order of equal-score rows. -/
def sortedByScoreDesc (l : List ContestEntry) : Prop :=
  List.Pairwise (fun a b => b.similarity_score ≤ a.similarity_score) l

instance (l : List ContestEntry) : Decidable (sortedByScoreDesc l) :=
  List.instDecidablePairwise l

/-- `SELECT * FROM contest_entries WHERE contest_id = $1 ORDER BY
similarity_score DESC LIMIT 3` as a relation between the rows of the
contest and the possible query results: any score-sorted permutation of the
contest's entries, truncated to three rows. -/
def top3Rows (entries sel : List ContestEntry) : Prop :=
  ∃ rows, rows.Perm entries ∧ sortedByScoreDesc rows ∧ sel = rows.take 3

/-- The entries of one contest: `WHERE contest_id = $1`. -/
def entriesFor (db : DB) (cid : ℕ) : List ContestEntry :=
  db.contest_entries.filter fun e => e.contest_id == cid

/-- JavaScript `x.user_id || null` on an optional row: an absent row gives
`undefined || null = null`, and a falsy (zero) field value is also coerced
to `null`. -/
def orNullNat (x : Option ℕ) : Option ℕ :=
  match x with
  | none => none
  | some v => if v = 0 then none else some v

/-- JavaScript `x.similarity_score || null`: zero is falsy. -/
def orNullQ (x : Option ℚ) : Option ℚ :=
  match x with
  | none => none
  | some v => if v = 0 then none else some v

/-- Response body of `PATCH /update_contest_top3`. -/
structure Top3Resp where
  first_photo_id : Option ℕ
  second_photo_id : Option ℕ
  third_photo_id : Option ℕ
  first_score : Option ℚ
  second_score : Option ℚ
  third_score : Option ℚ
deriving DecidableEq

/-- `PATCH /update_contest_top3` (part_001:911-957) after the entry query:
given the (at most three) rows `sel` the `LIMIT 3` query returned, writes
`first.user_id || null`, `second.user_id || null`, `third.user_id || null`
onto the matching `contests` row and answers with the photo ids and scores
of the three slots under the same `|| null` coercion; a missing row is the
empty object `{}`, whose fields are `undefined`. -/
def update_contest_top3 (db : DB) (cid : ℕ) (sel : List ContestEntry) :
    DB × Top3Resp :=
  ({ db with contests := db.contests.map fun c =>
      if c.contest_id == cid then
        { c with first_user_id := orNullNat (sel[0]?.map (·.user_id))
                 second_user_id := orNullNat (sel[1]?.map (·.user_id))
                 third_user_id := orNullNat (sel[2]?.map (·.user_id)) }
      else c },
    { first_photo_id := orNullNat (sel[0]?.map (·.user_photo_id))
      second_photo_id := orNullNat (sel[1]?.map (·.user_photo_id))
      third_photo_id := orNullNat (sel[2]?.map (·.user_photo_id))
      first_score := orNullQ (sel[0]?.map (·.similarity_score))
      second_score := orNullQ (sel[1]?.map (·.similarity_score))
      third_score := orNullQ (sel[2]?.map (·.similarity_score)) })

/-- Score reported for slot `i` (0-based) of the response. -/
def respScoreAt (r : Top3Resp) : ℕ → Option ℚ
  | 0 => r.first_score
  | 1 => r.second_score
  | 2 => r.third_score
  | _ => none

/-- Photo id reported for slot `i` (0-based) of the response. -/
def respPhotoAt (r : Top3Resp) : ℕ → Option ℕ
  | 0 => r.first_photo_id
  | 1 => r.second_photo_id
  | 2 => r.third_photo_id
  | _ => none

/-- `PATCH /contests/status` (part_001:960-981): `UPDATE contests SET
status = $1 WHERE contest_id = $2 RETURNING *`, answering 404 when no row
matches and the first updated row otherwise. -/
def contests_status (db : DB) (cid : ℕ) (s : String) :
    Except Err (DB × Contest) :=
  match findContest db cid with
  | none => .error .NotFound
  | some c =>
    .ok ({ db with contests := db.contests.map fun x =>
             if x.contest_id == cid then { x with status := s } else x },
         { c with status := s })

/-- Overwrite the status of every `contests` row with id `cid`: the value a
run of `PATCH /contests/status` leaves in the table. -/
def DB.setStatus (db : DB) (cid : ℕ) (s : String) : DB :=
  { db with contests := db.contests.map fun c =>
      if c.contest_id == cid then { c with status := s } else c }

/-! ## Concrete instances used by the spec's testable properties -/

/-- Entry 1 of the spec §8 ranking example: score `0.9`, submitted first. -/
def exE1 : ContestEntry :=
  { contest_id := 1, user_id := 11, user_photo_id := 201
    similarity_score := mkRat 9 10, submitted_at := 1 }

/-- Entry 2 of the spec §8 ranking example: score `0.7`, submitted second. -/
def exE2 : ContestEntry :=
  { contest_id := 1, user_id := 12, user_photo_id := 202
    similarity_score := mkRat 7 10, submitted_at := 2 }

/-- Entry 3 of the spec §8 ranking example: score `0.95`, submitted third. -/
def exE3 : ContestEntry :=
  { contest_id := 1, user_id := 13, user_photo_id := 203
    similarity_score := mkRat 95 100, submitted_at := 3 }

/-- Entry 4 of the spec §8 ranking example: score `0.7`, submitted fourth. -/
def exE4 : ContestEntry :=
  { contest_id := 1, user_id := 14, user_photo_id := 204
    similarity_score := mkRat 7 10, submitted_at := 4 }

/-- The four entries of the spec §8 ranking example, in submission order. -/
def exEntries : List ContestEntry := [exE1, exE2, exE3, exE4]

/-- Contest 2: user 7 owns the two highest-scoring entries. -/
def dupE1 : ContestEntry :=
  { contest_id := 2, user_id := 7, user_photo_id := 301
    similarity_score := mkRat 9 10, submitted_at := 1 }

/-- Second entry of user 7 in contest 2, score `0.8`. -/
def dupE2 : ContestEntry :=
  { contest_id := 2, user_id := 7, user_photo_id := 302
    similarity_score := mkRat 4 5, submitted_at := 2 }

/-- Entry of user 8 in contest 2, score `0.5`. -/
def dupE3 : ContestEntry :=
  { contest_id := 2, user_id := 8, user_photo_id := 303
    similarity_score := mkRat 1 2, submitted_at := 3 }

/-- The contest record for contest 2. -/
def dupContest : Contest :=
  { contest_id := 2, target_embedding := [1, 0], status := "active"
    first_user_id := none, second_user_id := none, third_user_id := none }

/-- A database where user 7 has submitted twice to contest 2. -/
def dupDB : DB :=
  { contests := [dupContest]
    user_photos := [{ user_photo_id := 301, user_id := 7, embedding_vector := [1, 0] }]
    contest_entries := [dupE1, dupE2, dupE3]
    now := 4 }

/-- A similarity engine stub returning a fixed score, for witnesses that
only exercise control flow. -/
def constSim : List ℚ → List ℚ → Except Err ℚ := fun _ _ => .ok (mkRat 1 2)

/-- A single stored target photo, for nearest-neighbor witnesses. -/
def wTarget : Target := { target_photo_id := 42, embedding_vector := [1, 0] }

/-- An entry whose similarity score and photo id are exactly `0`. -/
def zeroEntry : ContestEntry :=
  { contest_id := 2, user_id := 9, user_photo_id := 0
    similarity_score := 0, submitted_at := 5 }

/-- The contest-2 record after ranking: user 7 occupies both the first and
the second winner slot. -/
def dupWinner : Contest :=
  { dupContest with first_user_id := some 7, second_user_id := some 7
                    third_user_id := some 8 }

/-! ## Theorems -/

lemma magSqQ_nonneg (a : List ℚ) : 0 ≤ magSqQ a := by
  unfold magSqQ dotQ
  induction a with
  | nil => simp
  | cons x t ih =>
    rw [List.zipWith_cons_cons, List.sum_cons]
    exact add_nonneg (mul_self_nonneg x) ih

lemma sqrt_magSqQ_eq_zero_iff (a : List ℚ) :
    Real.sqrt (magSqQ a) = 0 ↔ magSqQ a = 0 := by
  rw [Real.sqrt_eq_zero']
  constructor
  · intro h
    have h0 : (0 : ℝ) ≤ (magSqQ a : ℝ) := by exact_mod_cast magSqQ_nonneg a
    exact_mod_cast le_antisymm h h0
  · intro h
    rw [h]
    simp

lemma magSqQ_one_zero : magSqQ [1, 0] = 1 := by norm_num [magSqQ, dotQ]

lemma similarity_parallel : similarity [1, 0] [1, 0] = .ok 1 := by
  have hd : dotQ ([1, 0] : List ℚ) [1, 0] = 1 := by norm_num [dotQ]
  unfold similarity
  rw [if_neg (by decide), if_neg (by norm_num [magSqQ_one_zero])]
  unfold cosSimVal
  rw [hd, magSqQ_one_zero]
  norm_num

lemma similarity_antiparallel : similarity [1, 0] [-1, 0] = .ok (-1) := by
  have hm2 : magSqQ [-1, 0] = 1 := by norm_num [magSqQ, dotQ]
  have hd : dotQ ([1, 0] : List ℚ) [-1, 0] = -1 := by norm_num [dotQ]
  unfold similarity
  rw [if_neg (by decide), if_neg (by norm_num [magSqQ_one_zero, hm2])]
  unfold cosSimVal
  rw [hd, magSqQ_one_zero, hm2]
  norm_num

lemma jsRound_one_percent : jsRound (((1 : ℝ) + 1) / 2 * 100) = 100 := by
  unfold jsRound
  rw [Int.floor_eq_iff]
  norm_num

lemma jsRound_neg_one_percent : jsRound (((-1 : ℝ) + 1) / 2 * 100) = 0 := by
  unfold jsRound
  rw [Int.floor_eq_iff]
  norm_num

/-- C4: for every pair of input vectors of unequal length, the similarity
computation fails with `DimensionMismatch` instead of returning a number. -/
theorem similarity_dimension_mismatch (a b : List ℚ)
    (h : a.length ≠ b.length) :
    similarity a b = .error .DimensionMismatch := by
  unfold similarity
  rw [if_pos h]

/-- Witness for C4 at the spec's example `similarity([1,0,0], [1,0])`. -/
theorem similarity_dimension_mismatch_witness :
    ([1, 0, 0] : List ℚ).length ≠ ([1, 0] : List ℚ).length ∧
      similarity [1, 0, 0] [1, 0] = .error .DimensionMismatch :=
  ⟨by decide, similarity_dimension_mismatch [1, 0, 0] [1, 0] (by decide)⟩

/-- C5: for equal-length vectors, a zero magnitude on either side fails with
`DegenerateVector` rather than returning a numeric value, and when both
magnitudes are nonzero there is no other special-casing: the plain cosine
quotient is returned. -/
theorem similarity_degenerate_vector (a b : List ℚ)
    (h : a.length = b.length) :
    ((Real.sqrt (magSqQ a) = 0 ∨ Real.sqrt (magSqQ b) = 0) →
      similarity a b = .error .DegenerateVector) ∧
    (Real.sqrt (magSqQ a) ≠ 0 → Real.sqrt (magSqQ b) ≠ 0 →
      similarity a b =
        .ok ((dotQ a b : ℝ) /
          (Real.sqrt (magSqQ a) * Real.sqrt (magSqQ b)))) := by
  constructor
  · intro h0
    have h0' : magSqQ a = 0 ∨ magSqQ b = 0 := by
      rcases h0 with h0 | h0
      · exact Or.inl ((sqrt_magSqQ_eq_zero_iff a).mp h0)
      · exact Or.inr ((sqrt_magSqQ_eq_zero_iff b).mp h0)
    unfold similarity
    rw [if_neg (by simp [h]), if_pos h0']
  · intro ha hb
    have ha' : magSqQ a ≠ 0 := fun hc => ha ((sqrt_magSqQ_eq_zero_iff a).mpr hc)
    have hb' : magSqQ b ≠ 0 := fun hc => hb ((sqrt_magSqQ_eq_zero_iff b).mpr hc)
    unfold similarity cosSimVal
    rw [if_neg (by simp [h]), if_neg (by simp [ha', hb'])]

/-- Witness for C5: the zero vector against `[1,1]` is degenerate, while
`[1,0]` against `[0,1]` takes the plain quotient branch. -/
theorem similarity_degenerate_vector_witness :
    similarity [0, 0] [1, 1] = .error .DegenerateVector ∧
      similarity [1, 0] [0, 1] =
        .ok ((dotQ [1, 0] [0, 1] : ℝ) /
          (Real.sqrt (magSqQ [1, 0]) * Real.sqrt (magSqQ [0, 1]))) :=
  ⟨(similarity_degenerate_vector [0, 0] [1, 1] rfl).1
      (Or.inl (by rw [show magSqQ [0, 0] = 0 by norm_num [magSqQ, dotQ]]; simp)),
   (similarity_degenerate_vector [1, 0] [0, 1] rfl).2
      (by rw [magSqQ_one_zero]; simp)
      (by rw [show magSqQ [0, 1] = 1 by norm_num [magSqQ, dotQ]]; simp)⟩

/-- C3: the normalized percentage transform is
`Math.round(((score + 1) / 2) * 100)`, so perfectly aligned vectors report
100 percent and opposite vectors report 0 percent, while the entry stored
for ranking carries the raw similarity value returned by the engine, not
the rounded percentage. -/
theorem percent_transform_bounds :
    friend_similarity_core [1, 0] [1, 0] =
      .ok { cosine_similarity := 1, similarity_percent := 100 } ∧
    friend_similarity_core [1, 0] [-1, 0] =
      .ok { cosine_similarity := -1, similarity_percent := 0 } ∧
    ∀ simFn db cid uid pid db' e,
      contest_entry_add simFn db cid uid pid = .ok (db', e) →
      ∃ c p, findContest db cid = some c ∧ findUserPhoto db uid pid = some p ∧
        simFn c.target_embedding p.embedding_vector = .ok e.similarity_score := by
  refine ⟨?_, ?_, ?_⟩
  · unfold friend_similarity_core
    rw [similarity_parallel]
    simp only [Except.map]
    rw [jsRound_one_percent]
  · unfold friend_similarity_core
    rw [similarity_antiparallel]
    simp only [Except.map]
    rw [jsRound_neg_one_percent]
  · intro simFn db cid uid pid db' e h
    unfold contest_entry_add at h
    split at h
    · exact absurd h (by simp)
    rename_i c hc
    split at h
    · exact absurd h (by simp)
    rename_i p hp
    split at h
    rename_i err hs
    · exact absurd h (by simp)
    rename_i score hs
    simp only [Except.ok.injEq, Prod.mk.injEq] at h
    refine ⟨c, p, hc, hp, ?_⟩
    rw [← h.2]
    exact hs

/-- Witness for C3's ranking conjunct: a concrete successful entry insert
stores the engine's raw score. -/
theorem percent_transform_bounds_witness :
    ∃ c p, findContest dupDB 2 = some c ∧ findUserPhoto dupDB 7 301 = some p ∧
      constSim c.target_embedding p.embedding_vector =
        .ok (mkEntry 2 7 301 (mkRat 1 2) 4).similarity_score :=
  percent_transform_bounds.2.2 constSim dupDB 2 7 301
    { dupDB with
      contest_entries := dupDB.contest_entries ++ [mkEntry 2 7 301 (mkRat 1 2) 4]
      now := 5 }
    (mkEntry 2 7 301 (mkRat 1 2) 4) rfl

/-- C6: the store operation persists an embedding only when the returned
array's length is exactly 512, serializing it as the bracketed
comma-separated literal of its values; for every other length it fails with
`InvalidEmbeddingShape` and leaves the table unchanged. -/
theorem uploaduser_embedding_shape (photos : List StoredPhoto) (uid : ℕ)
    (raw : List ℚ) :
    (raw.length = 512 →
      uploaduser photos uid raw =
        (photos ++ [{ user_id := uid, embedding_vector := vectorLiteral raw }],
         .ok { user_id := uid, embedding_vector := vectorLiteral raw })) ∧
    (raw.length ≠ 512 →
      uploaduser photos uid raw = (photos, .error .InvalidEmbeddingShape)) := by
  constructor
  · intro h
    unfold uploaduser
    rw [if_pos h]
  · intro h
    unfold uploaduser
    rw [if_neg h]

/-- Witness for C6: a 512-long vector of zeros is persisted in serialized
form; a 2-long vector is rejected and nothing is stored. -/
theorem uploaduser_embedding_shape_witness :
    (List.replicate 512 (0 : ℚ)).length = 512 ∧
    uploaduser [] 1 (List.replicate 512 0) =
      ([{ user_id := 1, embedding_vector := vectorLiteral (List.replicate 512 0) }],
       .ok { user_id := 1, embedding_vector := vectorLiteral (List.replicate 512 0) }) ∧
    ([1, 0] : List ℚ).length ≠ 512 ∧
    uploaduser [] 1 [1, 0] = ([], .error .InvalidEmbeddingShape) :=
  ⟨List.length_replicate 512 0,
   (uploaduser_embedding_shape [] 1 _).1 (List.length_replicate 512 0), by decide,
   (uploaduser_embedding_shape [] 1 [1, 0]).2 (by decide)⟩

/-- C2: every possible answer of `/find_most_similar` is a stored target of
minimal cosine distance to the query, its reported `similarity` equals one
minus that distance, and an empty `target_photos` table yields the explicit
`EmptyCollection` (404) failure instead of a result. -/
theorem find_most_similar_nearest (targets : List Target) (q : List ℚ)
    (out : Except Err FindRow) (h : find_most_similar_rel targets q out) :
    (targets = [] → out = .error .EmptyCollection) ∧
    (∀ r, out = .ok r → r.target ∈ targets ∧
      (∀ t ∈ targets, distTo q r.target ≤ distTo q t) ∧
      r.similarity = 1 - distTo q r.target) := by
  rcases h with ⟨htgt, hout⟩ | ⟨x, xs, hperm, hsort, hout⟩
  · subst hout
    exact ⟨fun _ => rfl, fun r hr => by simp at hr⟩
  · constructor
    · intro h0
      subst h0
      exact absurd hperm.length_eq (by simp)
    · intro r hr
      rw [hout] at hr
      obtain rfl : FindRow.mk x (1 - distTo q x) = r := by
        injection hr
      refine ⟨hperm.subset (List.mem_cons_self x xs), ?_, rfl⟩
      intro t ht
      have ht' : t ∈ x :: xs := hperm.mem_iff.mpr ht
      rcases List.mem_cons.mp ht' with rfl | htl
      · exact le_refl _
      · exact (List.pairwise_cons.mp hsort).1 t htl

/-- Witness for C2: the empty table answers `EmptyCollection`, and with one
stored target that target is returned with `similarity = 1 - distance`. -/
theorem find_most_similar_nearest_witness :
    ((.error .EmptyCollection : Except Err FindRow) = .error .EmptyCollection) ∧
    (FindRow.mk wTarget (1 - distTo [1, 0] wTarget)).target ∈ [wTarget] ∧
    distTo [1, 0] (FindRow.mk wTarget (1 - distTo [1, 0] wTarget)).target ≤
      distTo [1, 0] wTarget ∧
    (FindRow.mk wTarget (1 - distTo [1, 0] wTarget)).similarity =
      1 - distTo [1, 0] (FindRow.mk wTarget (1 - distTo [1, 0] wTarget)).target := by
  have h1 := find_most_similar_nearest [] [1, 0] (.error .EmptyCollection)
    (Or.inl ⟨rfl, rfl⟩)
  have h2 := find_most_similar_nearest [wTarget] [1, 0]
    (.ok (FindRow.mk wTarget (1 - distTo [1, 0] wTarget)))
    (Or.inr ⟨wTarget, [], List.Perm.refl _, List.pairwise_singleton _ _, rfl⟩)
  have h3 := h2.2 (FindRow.mk wTarget (1 - distTo [1, 0] wTarget)) rfl
  exact ⟨h1.1 rfl, h3.1, h3.2.1 wTarget (by simp), h3.2.2⟩

/-- C1 as stated is false at the spec's own example: the entry query orders
by `similarity_score DESC` with no secondary sort key, so on scores
`[0.9, 0.7, 0.95, 0.7]` the selection `[entry3, entry1, entry4]` — which
breaks the `0.7` tie in favour of the LATER submission — is also a valid
query result, contradicting the claimed tie-break by earlier
`submitted_at`. -/
theorem rank_entries_tiebreak_counterexample :
    ¬ (∀ sel, top3Rows exEntries sel → sel = [exE3, exE1, exE2]) := fun h =>
  absurd
    (h [exE3, exE1, exE4]
      ⟨[exE3, exE1, exE4, exE2], by decide, by decide, rfl⟩)
    (by decide)

/-- C1 amended: `rank_entries` selects three entries sorted by similarity
score descending that dominate all remaining entries, but the order among
equal scores is unspecified; on scores `[0.9, 0.7, 0.95, 0.7]` first is
entry3 and second is entry1, while third is either entry2 or entry4. -/
theorem rank_entries_top3_amended :
    (∀ entries sel, top3Rows entries sel →
      sortedByScoreDesc sel ∧ sel.length = min 3 entries.length ∧
      ∃ rest, (sel ++ rest).Perm entries ∧
        ∀ y ∈ rest, ∀ x ∈ sel, y.similarity_score ≤ x.similarity_score) ∧
    (∀ sel, top3Rows exEntries sel →
      sel[0]? = some exE3 ∧ sel[1]? = some exE1 ∧
        (sel[2]? = some exE2 ∨ sel[2]? = some exE4)) := by
  constructor
  · rintro entries sel ⟨rows, hperm, hsort, rfl⟩
    refine ⟨List.Pairwise.sublist (List.take_sublist 3 rows) hsort, ?_,
      rows.drop 3, ?_, ?_⟩
    · rw [List.length_take, hperm.length_eq]
    · rw [List.take_append_drop]
      exact hperm
    · intro y hy x hx
      have hsort' : List.Pairwise
          (fun a b => b.similarity_score ≤ a.similarity_score)
          (rows.take 3 ++ rows.drop 3) := by
        rw [List.take_append_drop]
        exact hsort
      exact (List.pairwise_append.mp hsort').2.2 x hx y hy
  · rintro sel ⟨rows, hperm, hsort, rfl⟩
    have key : ∀ r ∈ exEntries.permutations', sortedByScoreDesc r →
        ((r.take 3)[0]? = some exE3 ∧ (r.take 3)[1]? = some exE1 ∧
          ((r.take 3)[2]? = some exE2 ∨ (r.take 3)[2]? = some exE4)) := by
      decide
    exact key rows (List.mem_permutations'.mpr hperm) hsort

/-- Witness for the amended C1 at the selection `[entry3, entry1, entry2]`. -/
theorem rank_entries_top3_amended_witness :
    sortedByScoreDesc [exE3, exE1, exE2] ∧
    [exE3, exE1, exE2].length = min 3 exEntries.length ∧
    [exE3, exE1, exE2][0]? = some exE3 ∧ [exE3, exE1, exE2][1]? = some exE1 ∧
    ([exE3, exE1, exE2][2]? = some exE2 ∨ [exE3, exE1, exE2][2]? = some exE4) := by
  have hrel : top3Rows exEntries [exE3, exE1, exE2] :=
    ⟨[exE3, exE1, exE2, exE4], by decide, by decide, rfl⟩
  have h1 := rank_entries_top3_amended.1 exEntries [exE3, exE1, exE2] hrel
  have h2 := rank_entries_top3_amended.2 [exE3, exE1, exE2] hrel
  exact ⟨h1.1, h1.2.1, h2.1, h2.2.1, h2.2.2⟩

/-- C7: a contest with fewer than three entries gets its unfilled slots
reported as explicit null markers rather than omitted — in particular a
single-entry contest returns that entry as first with markers for second
and third — and the first/second/third user references are persisted back
onto the matching `contests` record. -/
theorem rank_entries_fills_missing_slots :
    (∀ db cid entries sel, top3Rows entries sel → entries.length < 3 →
      (update_contest_top3 db cid sel).2.third_photo_id = none ∧
      (update_contest_top3 db cid sel).2.third_score = none ∧
      ∀ c ∈ (update_contest_top3 db cid sel).1.contests,
        c.contest_id = cid → c.third_user_id = none) ∧
    (∀ db cid e sel, top3Rows [e] sel →
      e.user_id ≠ 0 → e.user_photo_id ≠ 0 → e.similarity_score ≠ 0 →
      (update_contest_top3 db cid sel).2.first_photo_id = some e.user_photo_id ∧
      (update_contest_top3 db cid sel).2.first_score = some e.similarity_score ∧
      (update_contest_top3 db cid sel).2.second_photo_id = none ∧
      (update_contest_top3 db cid sel).2.second_score = none ∧
      (update_contest_top3 db cid sel).2.third_photo_id = none ∧
      (update_contest_top3 db cid sel).2.third_score = none ∧
      ∀ c ∈ (update_contest_top3 db cid sel).1.contests, c.contest_id = cid →
        c.first_user_id = some e.user_id ∧ c.second_user_id = none ∧
        c.third_user_id = none) := by
  constructor
  · rintro db cid entries sel ⟨rows, hperm, hsort, rfl⟩ hlen
    have hrl : rows.length < 3 := hperm.length_eq ▸ hlen
    have h2 : (rows.take 3)[2]? = none := by
      apply List.getElem?_eq_none
      rw [List.length_take]
      omega
    refine ⟨?_, ?_, ?_⟩
    · show orNullNat ((rows.take 3)[2]?.map (·.user_photo_id)) = none
      rw [h2]
      rfl
    · show orNullQ ((rows.take 3)[2]?.map (·.similarity_score)) = none
      rw [h2]
      rfl
    · intro c hc hcid
      simp only [update_contest_top3, List.mem_map] at hc
      obtain ⟨x, hx, rfl⟩ := hc
      by_cases hb : x.contest_id == cid
      · rw [if_pos hb]
        show orNullNat ((rows.take 3)[2]?.map (·.user_id)) = none
        rw [h2]
        rfl
      · rw [if_neg hb] at hcid
        exact absurd (beq_iff_eq.mpr hcid) hb
  · rintro db cid e sel ⟨rows, hperm, hsort, rfl⟩ hu hp hs
    obtain rfl : rows = [e] := List.perm_singleton.mp hperm
    refine ⟨?_, ?_, rfl, rfl, rfl, rfl, ?_⟩
    · show orNullNat (some e.user_photo_id) = some e.user_photo_id
      simp [orNullNat, hp]
    · show orNullQ (some e.similarity_score) = some e.similarity_score
      simp [orNullQ, hs]
    · intro c hc hcid
      simp only [update_contest_top3, List.mem_map] at hc
      obtain ⟨x, hx, rfl⟩ := hc
      by_cases hb : x.contest_id == cid
      · rw [if_pos hb]
        refine ⟨?_, rfl, rfl⟩
        show orNullNat (some e.user_id) = some e.user_id
        simp [orNullNat, hu]
      · rw [if_neg hb] at hcid
        exact absurd (beq_iff_eq.mpr hcid) hb

/-- Witness for C7: a single-entry contest (entry `dupE1`) yields that entry
as first, markers everywhere else, and the persisted winner columns. -/
theorem rank_entries_fills_missing_slots_witness :
    ((update_contest_top3 dupDB 2 [dupE1]).2.third_photo_id = none ∧
     (update_contest_top3 dupDB 2 [dupE1]).2.third_score = none) ∧
    ((update_contest_top3 dupDB 2 [dupE1]).2.first_photo_id = some dupE1.user_photo_id ∧
     (update_contest_top3 dupDB 2 [dupE1]).2.first_score = some dupE1.similarity_score ∧
     (update_contest_top3 dupDB 2 [dupE1]).2.second_photo_id = none ∧
     (update_contest_top3 dupDB 2 [dupE1]).2.second_score = none) := by
  have hrel : top3Rows [dupE1] [dupE1] :=
    ⟨[dupE1], List.Perm.refl _, List.pairwise_singleton _ _, rfl⟩
  have h1 := rank_entries_fills_missing_slots.1 dupDB 2 [dupE1] [dupE1] hrel
    (by decide)
  have h2 := rank_entries_fills_missing_slots.2 dupDB 2 dupE1 [dupE1] hrel
    (by decide) (by decide) (by norm_num [dupE1])
  exact ⟨⟨h1.1, h1.2.1⟩, h2.1, h2.2.1, h2.2.2.1, h2.2.2.2.1⟩

/-- C9: every falsy slot field of the `/update_contest_top3` response is
coerced to `null`: an entry with similarity score exactly `0` (or photo id
`0`) occupying a winner slot is reported as `null`, exactly like the marker
used for a missing entry. -/
theorem top3_zero_score_reported_null :
    (∀ db cid sel i e, sel[i]? = some e → e.similarity_score = 0 →
      respScoreAt (update_contest_top3 db cid sel).2 i = none) ∧
    (∀ db cid sel i e, sel[i]? = some e → e.user_photo_id = 0 →
      respPhotoAt (update_contest_top3 db cid sel).2 i = none) ∧
    (∀ db cid sel i, sel[i]? = none →
      respScoreAt (update_contest_top3 db cid sel).2 i = none) := by
  refine ⟨?_, ?_, ?_⟩
  · intro db cid sel i e hi hz
    rcases i with _ | _ | _ | n
    · show orNullQ (sel[0]?.map (·.similarity_score)) = none
      rw [hi]
      simp [orNullQ, hz]
    · show orNullQ (sel[1]?.map (·.similarity_score)) = none
      rw [hi]
      simp [orNullQ, hz]
    · show orNullQ (sel[2]?.map (·.similarity_score)) = none
      rw [hi]
      simp [orNullQ, hz]
    · rfl
  · intro db cid sel i e hi hz
    rcases i with _ | _ | _ | n
    · show orNullNat (sel[0]?.map (·.user_photo_id)) = none
      rw [hi]
      simp [orNullNat, hz]
    · show orNullNat (sel[1]?.map (·.user_photo_id)) = none
      rw [hi]
      simp [orNullNat, hz]
    · show orNullNat (sel[2]?.map (·.user_photo_id)) = none
      rw [hi]
      simp [orNullNat, hz]
    · rfl
  · intro db cid sel i hi
    rcases i with _ | _ | _ | n
    · show orNullQ (sel[0]?.map (·.similarity_score)) = none
      rw [hi]
      rfl
    · show orNullQ (sel[1]?.map (·.similarity_score)) = none
      rw [hi]
      rfl
    · show orNullQ (sel[2]?.map (·.similarity_score)) = none
      rw [hi]
      rfl
    · rfl

/-- Witness for C9: a zero-score, zero-photo-id entry in the first slot is
reported null exactly like the marker of an empty selection. -/
theorem top3_zero_score_reported_null_witness :
    respScoreAt (update_contest_top3 dupDB 2 [zeroEntry]).2 0 = none ∧
    respPhotoAt (update_contest_top3 dupDB 2 [zeroEntry]).2 0 = none ∧
    respScoreAt (update_contest_top3 dupDB 2 []).2 0 = none :=
  ⟨top3_zero_score_reported_null.1 dupDB 2 [zeroEntry] 0 zeroEntry rfl rfl,
   top3_zero_score_reported_null.2.1 dupDB 2 [zeroEntry] 0 zeroEntry rfl rfl,
   top3_zero_score_reported_null.2.2 dupDB 2 [] 0 rfl⟩

/-- C10: entry submission never deduplicates by user — every successful
`/contest_entry_add` appends a fresh row for the submitting user regardless
of that user's earlier entries — so when one user owns the two
highest-scoring entries of a contest, every valid ranking writes that user
into both the first and the second winner slot of the Contest record. -/
theorem ranking_no_user_dedup :
    (∀ simFn db cid uid pid db' e,
      contest_entry_add simFn db cid uid pid = .ok (db', e) →
      db'.contest_entries = db.contest_entries ++ [e] ∧ e.user_id = uid ∧
      e.user_photo_id = pid) ∧
    (∀ sel, top3Rows (entriesFor dupDB 2) sel →
      ∀ c ∈ (update_contest_top3 dupDB 2 sel).1.contests,
        c.first_user_id = some 7 ∧ c.second_user_id = some 7) := by
  constructor
  · intro simFn db cid uid pid db' e h
    unfold contest_entry_add at h
    split at h
    · exact absurd h (by simp)
    split at h
    · exact absurd h (by simp)
    split at h
    · exact absurd h (by simp)
    simp only [Except.ok.injEq, Prod.mk.injEq] at h
    rw [← h.1, ← h.2]
    exact ⟨rfl, rfl, rfl⟩
  · rintro sel ⟨rows, hperm, hsort, rfl⟩
    have key : ∀ r ∈ (entriesFor dupDB 2).permutations', sortedByScoreDesc r →
        ∀ c ∈ (update_contest_top3 dupDB 2 (r.take 3)).1.contests,
          c.first_user_id = some 7 ∧ c.second_user_id = some 7 := by
      decide
    exact key rows (List.mem_permutations'.mpr hperm) hsort

/-- Witness for C10: a repeat submission by user 7 is appended as its own
row, and ranking contest 2 puts user 7 into both of the top two slots. -/
theorem ranking_no_user_dedup_witness :
    ((DB.mk [dupContest]
        [{ user_photo_id := 301, user_id := 7, embedding_vector := [1, 0] }]
        (dupDB.contest_entries ++ [mkEntry 2 7 301 (mkRat 1 2) 4])
        5).contest_entries =
      dupDB.contest_entries ++ [mkEntry 2 7 301 (mkRat 1 2) 4] ∧
      (mkEntry 2 7 301 (mkRat 1 2) 4).user_id = 7 ∧
      (mkEntry 2 7 301 (mkRat 1 2) 4).user_photo_id = 301) ∧
    (dupWinner.first_user_id = some 7 ∧ dupWinner.second_user_id = some 7) := by
  have h1 := ranking_no_user_dedup.1 constSim dupDB 2 7 301
    (DB.mk [dupContest]
      [{ user_photo_id := 301, user_id := 7, embedding_vector := [1, 0] }]
      (dupDB.contest_entries ++ [mkEntry 2 7 301 (mkRat 1 2) 4]) 5)
    (mkEntry 2 7 301 (mkRat 1 2) 4) rfl
  have hrel : top3Rows (entriesFor dupDB 2) [dupE1, dupE2, dupE3] :=
    ⟨[dupE1, dupE2, dupE3],
     by rw [show entriesFor dupDB 2 = [dupE1, dupE2, dupE3] from rfl],
     by decide, rfl⟩
  have hmem : dupWinner ∈
      (update_contest_top3 dupDB 2 [dupE1, dupE2, dupE3]).1.contests := by
    show dupWinner ∈ [dupWinner]
    exact List.mem_singleton.mpr rfl
  have h2 := ranking_no_user_dedup.2 [dupE1, dupE2, dupE3] hrel dupWinner hmem
  exact ⟨h1, h2⟩

lemma findContest_setStatus (db : DB) (cid' : ℕ) (s : String) (cid : ℕ) :
    findContest (db.setStatus cid' s) cid =
      (findContest db cid).map
        (fun c => if c.contest_id == cid' then { c with status := s } else c) := by
  show (db.contests.map
      (fun c => if c.contest_id == cid' then { c with status := s } else c)).find?
      (fun c => c.contest_id == cid) =
    (db.contests.find? (fun c => c.contest_id == cid)).map
      (fun c => if c.contest_id == cid' then { c with status := s } else c)
  have hp : ((fun c : Contest => c.contest_id == cid) ∘
      (fun c => if c.contest_id == cid' then { c with status := s } else c)) =
      (fun c : Contest => c.contest_id == cid) := by
    funext x
    by_cases hb : x.contest_id == cid' <;> simp [Function.comp, hb]
  rw [List.find?_map, hp]

/-- C8: neither entry submission nor ranking inspects the contest's
lifecycle status — overwriting any contest's status changes neither the
outcome of `/contest_entry_add` (which never touches the `contests` table)
nor the `/update_contest_top3` response, ranking preserves every stored
status, and only `/contests/status` rewrites it. -/
theorem contest_status_never_gates :
    (∀ simFn db cid' s cid uid pid,
      Except.map (fun r => (r.1.contest_entries, r.2))
          (contest_entry_add simFn (db.setStatus cid' s) cid uid pid) =
        Except.map (fun r => (r.1.contest_entries, r.2))
          (contest_entry_add simFn db cid uid pid)) ∧
    (∀ simFn db cid uid pid db' e,
      contest_entry_add simFn db cid uid pid = .ok (db', e) →
      db'.contests = db.contests) ∧
    (∀ db cid' s cid sel,
      (update_contest_top3 (db.setStatus cid' s) cid sel).2 =
        (update_contest_top3 db cid sel).2) ∧
    (∀ db cid sel,
      (update_contest_top3 db cid sel).1.contests.map (·.status) =
        db.contests.map (·.status)) ∧
    (∀ db cid s db' c, contests_status db cid s = .ok (db', c) →
      db' = db.setStatus cid s ∧ c.status = s) := by
  refine ⟨?_, ?_, ?_, ?_, ?_⟩
  · intro simFn db cid' s cid uid pid
    unfold contest_entry_add
    rw [findContest_setStatus]
    have hup : findUserPhoto (db.setStatus cid' s) uid pid =
        findUserPhoto db uid pid := rfl
    rw [hup]
    cases hfc : findContest db cid with
    | none => rfl
    | some c =>
      simp only [Option.map_some']
      have he : (if c.contest_id == cid' then { c with status := s }
          else c).target_embedding = c.target_embedding := by
        by_cases hb : c.contest_id == cid' <;> simp [hb]
      rw [he]
      split
      · rfl
      split
      · rfl
      rfl
  · intro simFn db cid uid pid db' e h
    unfold contest_entry_add at h
    split at h
    · exact absurd h (by simp)
    split at h
    · exact absurd h (by simp)
    split at h
    · exact absurd h (by simp)
    simp only [Except.ok.injEq, Prod.mk.injEq] at h
    rw [← h.1]
  · intro db cid' s cid sel
    rfl
  · intro db cid sel
    simp only [update_contest_top3]
    rw [List.map_map]
    congr 1
    funext x
    by_cases hb : x.contest_id == cid <;> simp [Function.comp, hb]
  · intro db cid s db' c h
    unfold contests_status at h
    split at h
    · exact absurd h (by simp)
    simp only [Except.ok.injEq, Prod.mk.injEq] at h
    constructor
    · rw [← h.1]
      rfl
    · rw [← h.2]

/-- Witness for C8: a concrete entry insert leaves the `contests` table
untouched, and a concrete `/contests/status` call on a contest rewrites
exactly its status. -/
theorem contest_status_never_gates_witness :
    ({ dupDB with
        contest_entries := dupDB.contest_entries ++ [mkEntry 2 7 301 (mkRat 1 2) 4]
        now := 5 } : DB).contests = dupDB.contests ∧
    dupDB.setStatus 2 "closed" = dupDB.setStatus 2 "closed" ∧
    ({ dupContest with status := "closed" } : Contest).status = "closed" := by
  have h2 := contest_status_never_gates.2.1 constSim dupDB 2 7 301
    { dupDB with
      contest_entries := dupDB.contest_entries ++ [mkEntry 2 7 301 (mkRat 1 2) 4]
      now := 5 }
    (mkEntry 2 7 301 (mkRat 1 2) 4) rfl
  have h5 := contest_status_never_gates.2.2.2.2 dupDB 2 "closed"
    (dupDB.setStatus 2 "closed") { dupContest with status := "closed" } rfl
  exact ⟨h2, h5.1, h5.2⟩
